import Mathlib

/-!
Shallow embedding of the usbctl core: device discovery (src/device.rs),
filter composition (src/actions/filter.rs), the action pipeline
(src/actions.rs) and the CLI matching filter (cli/src/main.rs).

Filesystem effects are made explicit: discovery consumes a `Registry`
value describing the listing/metadata/product-read results of the device
tree, and the action pipeline records its log lines and control-file
writes as a trace of `Event`s, with write outcomes supplied by a
`WriteEnv`.  An `OsString` port is modelled by its lossy text rendering
(a `String`), which is the only view the embedded operations inspect.
-/

namespace Usbctl

/-- Decidable equality for `Except`, used by the derived instances below. -/
instance instDecEqExcept {ε α : Type} [DecidableEq ε] [DecidableEq α] :
    DecidableEq (Except ε α) := fun x y =>
  match x, y with
  | .error a, .error b =>
    if h : a = b then isTrue (by rw [h]) else isFalse (fun he => by cases he; exact h rfl)
  | .error _, .ok _ => isFalse (fun he => by cases he)
  | .ok _, .error _ => isFalse (fun he => by cases he)
  | .ok a, .ok b =>
    if h : a = b then isTrue (by rw [h]) else isFalse (fun he => by cases he; exact h rfl)

/-- Device status (src/device.rs, `Status`). -/
inductive Status
  | Online
  | Offline
deriving DecidableEq

/-- Direct translation of `Status::from_bool`. -/
def Status.from_bool (online : Bool) : Status :=
  if online then .Online else .Offline

/-- A USB device (src/device.rs, `Device`); `port` is the lossy text of the
`OsString` port. -/
structure Device where
  port : String
  name : String
  online : Status
deriving DecidableEq

/-- Kind of an I/O error, mirroring `std::io::ErrorKind` as far as the code
inspects it (only the not-found test in `discover` matters). -/
inductive IoErrorKind
  | notFound
  | permissionDenied
  | otherKind
deriving DecidableEq

/-- An opaque `std::io::Error`: the inspected kind plus an uninterpreted
payload. -/
structure IoError where
  kind : IoErrorKind
  msg : String
deriving DecidableEq

/-- Substring containment, the meaning of Rust's `str::contains` with a
string pattern: the needle's characters occur contiguously in the hay. -/
def strContains (hay pat : String) : Bool :=
  decide (pat.data <:+: hay.data)

/-- Whitespace trimming of both ends of a character list, the meaning of
Rust's `str::trim`. -/
def trimChars (l : List Char) : List Char :=
  ((l.dropWhile Char.isWhitespace).reverse.dropWhile Char.isWhitespace).reverse

/-- `str::trim` on strings. -/
def strTrim (s : String) : String := ⟨trimChars s.data⟩

/-- ASCII lower-casing of a string, used to express case-insensitive
containment of the token "host" when settling the host-exclusion rule. -/
def asciiLower (s : String) : String :=
  ⟨s.data.map (fun c => if 65 ≤ c.toNat ∧ c.toNat ≤ 90 then Char.ofNat (c.toNat + 32) else c)⟩

/-- Direct translation of `Device::matches` (src/device.rs). -/
def Device.matches (d : Device) (search : String) (ex : Bool) : Bool :=
  if ex then
    d.port == search || d.name == search
  else
    strContains d.port search || strContains d.name search

/-- An action applied to a device (src/actions.rs, `Action`). -/
inductive Action
  | On
  | Off
  | Toggle
deriving DecidableEq

/-- Device status change error (src/device.rs, `StatusError`); each variant
carries the control-file path and the underlying I/O error. -/
inductive StatusError
  | On (path : String) (source : IoError)
  | Off (path : String) (source : IoError)
deriving DecidableEq

/-- Device discovery error (src/device.rs, `DiscoveryError`). -/
inductive DiscoveryError
  | FetchEntry (path : String) (source : IoError)
  | Metadata (path : String) (source : IoError)
  | ReadFile (path : String) (source : IoError)
deriving DecidableEq

/-- Operation error of the action pipeline (src/actions.rs, `Error`). -/
inductive Error
  | Fetch (source : DiscoveryError)
  | TurnOn (device : Device) (source : StatusError)
  | TurnOff (device : Device) (source : StatusError)
deriving DecidableEq

/-- The registry root walked by `discover`. -/
def basePath : String := "/sys/bus/usb/devices/"

/-- The driver-binding registry consulted for a device's status. -/
def driverPath : String := "/sys/bus/usb/drivers/usb/"

/-- File metadata, as far as `discover` inspects it. -/
structure Metadata where
  isDir : Bool
deriving DecidableEq

/-- One entry of the registry root as seen by `discover`: its base name and
the outcomes of the metadata fetch, the product-file existence test and the
product-file read. -/
structure RegEntry where
  name : String
  metadata : Except IoError Metadata
  productExists : Bool
  productContents : Except IoError String
deriving DecidableEq

/-- A state of the device registry: the listing results of the registry
root (in filesystem order) and the set of port names present under the
driver-binding registry. -/
structure Registry where
  entries : List (Except IoError RegEntry)
  driver : List String
deriving DecidableEq

/-- Rust's `Result::transpose` on `Result<Option<T>, E>`. -/
def transposeOpt {ε α : Type} : Except ε (Option α) → Option (Except ε α)
  | .error e => some (.error e)
  | .ok none => none
  | .ok (some a) => some (.ok a)

/-- The body of the closure mapped over the directory listing in `discover`
(src/device.rs lines 164-197): skip a vanished entry (not-found metadata), a
non-directory, or a directory without a product file; otherwise build the
`Device` from the trimmed product contents and the driver-registry test. -/
def discoverOne (driver : List String) : Except IoError RegEntry →
    Except DiscoveryError (Option Device)
  | .error io => .error (.FetchEntry basePath io)
  | .ok en =>
    match en.metadata with
    | .error io =>
      if io.kind = .notFound then .ok none
      else .error (.Metadata (basePath ++ en.name) io)
    | .ok md =>
      if md.isDir = false then .ok none
      else if en.productExists = false then .ok none
      else
        match en.productContents with
        | .error io => .error (.ReadFile (basePath ++ en.name) io)
        | .ok contents =>
          .ok (some { port := en.name,
                      name := strTrim contents,
                      online := Status.from_bool (driver.contains en.name) })

/-- Direct translation of `discover` (src/device.rs) applied to a registry
state: map the per-entry closure over the listing and drop the skipped
entries via `Result::transpose` + `filter_map`. -/
def discover (r : Registry) : List (Except DiscoveryError Device) :=
  (r.entries.map (discoverOne r.driver)).filterMap transposeOpt

/-- One observable step of the action pipeline: a log line or a
control-file write.  `writeBind` marks an invocation of `Device::on`
(a write of the port to the bind control file) and `writeUnbind` an
invocation of `Device::off` (a write to the unbind control file). -/
inductive Event
  | logDebugSkipped (device : Device)
  | logWarnRefuseOn (name : String) (port : String)
  | logWarnRefuseOff (name : String) (port : String)
  | logInfoTurningOn (name : String)
  | logInfoTurningOff (name : String)
  | writeBind (port : String)
  | writeUnbind (port : String)
deriving DecidableEq

/-- Whether an event is a control-file write (as opposed to a log line). -/
def Event.isWrite : Event → Bool
  | .writeBind _ => true
  | .writeUnbind _ => true
  | _ => false

/-- Outcomes of the two control-file writes: `bindResult d` is the result
of `d.on()` (`none` = success), `unbindResult d` the result of `d.off()`. -/
structure WriteEnv where
  bindResult : Device → Option StatusError
  unbindResult : Device → Option StatusError

/-- A stateful filter (src/actions/filter.rs, trait `Filter`): `filter`
takes `&mut self`, so it is modelled as explicit state passing — given a
device and the current state it returns the verdict and the new state. -/
def FilterM (σ : Type) : Type := Device → σ → Bool × σ

/-- `NoOpFilter`: yields all supplied devices. -/
def noOpFilter : FilterM Unit := fun _ s => (true, s)

/-- `ClosureFilter` over a pure predicate (a stateless `FnMut`). -/
def closureFilter (p : Device → Bool) : FilterM Unit := fun d s => (p d, s)

/-- `ChainFilter` (src/actions/filter.rs): `first.filter(device) &&
second.filter(device)` on the pair of component states.  The first filter
always runs; the second runs only when the first succeeded (Rust's `&&`
short-circuits), so on rejection the second state is untouched. -/
def chainFilter {α β : Type} (f : FilterM α) (g : FilterM β) : FilterM (α × β) :=
  fun d s =>
    let r1 := f d s.1
    if r1.1 then
      let r2 := g d s.2
      (r2.1, (r1.2, r2.2))
    else
      (false, (r1.2, s.2))

/-- The body of the `match (action, device.online)` in `Apply::run`
(src/actions.rs lines 112-151) for one device that passed the filter:
the events it emits and, when a write fails, the error that aborts the
run.  The confirmation log precedes the write; the write is attempted
only when `dry_run` is off. -/
def handleDevice (env : WriteEnv) (action : Action) (dry_run : Bool)
    (device : Device) : List Event × Option Error :=
  match action, device.online with
  | .On, .Online =>
    ([.logWarnRefuseOn device.name device.port], none)
  | .On, .Offline =>
    if dry_run then ([.logInfoTurningOn device.name], none)
    else
      match env.bindResult device with
      | none => ([.logInfoTurningOn device.name, .writeBind device.port], none)
      | some e =>
        ([.logInfoTurningOn device.name, .writeBind device.port],
         some (.TurnOn device e))
  | .Off, .Online =>
    if dry_run then ([.logInfoTurningOff device.name], none)
    else
      match env.unbindResult device with
      | none => ([.logInfoTurningOff device.name, .writeUnbind device.port], none)
      | some e =>
        ([.logInfoTurningOff device.name, .writeUnbind device.port],
         some (.TurnOff device e))
  | .Off, .Offline =>
    ([.logWarnRefuseOff device.name device.port], none)
  | .Toggle, .Online =>
    if dry_run then ([.logInfoTurningOff device.name], none)
    else
      match env.unbindResult device with
      | none => ([.logInfoTurningOff device.name, .writeUnbind device.port], none)
      | some e =>
        ([.logInfoTurningOff device.name, .writeUnbind device.port],
         some (.TurnOff device e))
  | .Toggle, .Offline =>
    if dry_run then ([.logInfoTurningOn device.name], none)
    else
      match env.bindResult device with
      | none => ([.logInfoTurningOn device.name, .writeBind device.port], none)
      | some e =>
        ([.logInfoTurningOn device.name, .writeBind device.port],
         some (.TurnOn device e))

/-- Direct translation of `Apply::run` (src/actions.rs lines 105-154):
walk the device sequence in order, abort on an error element (wrapped as
`Error.Fetch`), skip filtered-out devices with a diagnostic log, apply the
transition table to the rest, and abort on a failed write.  Returns the
event trace, the final filter state and the run's result. -/
def applyRun (env : WriteEnv) (action : Action) {σ : Type} (f : FilterM σ)
    (dry_run : Bool) :
    List (Except DiscoveryError Device) → σ →
    List Event × σ × Except Error Unit
  | [], s => ([], s, .ok ())
  | .error e :: _, s => ([], s, .error (.Fetch e))
  | .ok device :: rest, s =>
    let fr := f device s
    if fr.1 then
      let he := handleDevice env action dry_run device
      match he.2 with
      | some err => (he.1, fr.2, .error err)
      | none =>
        let o := applyRun env action f dry_run rest fr.2
        (he.1 ++ o.1, o.2.1, o.2.2)
    else
      let o := applyRun env action f dry_run rest fr.2
      (.logDebugSkipped device :: o.1, o.2.1, o.2.2)

/-- The CLI matching filter's data (cli/src/main.rs, `DeviceMatch`). -/
structure DeviceMatch where
  search : List String
  exact : Bool
  allow_host : Bool

/-- Direct translation of `impl Filter for DeviceMatch` (cli/src/main.rs
lines 232-244): reject when the search set is empty or when the host rule
applies; otherwise select when any search string matches. -/
def DeviceMatch.filter (m : DeviceMatch) (device : Device) : Bool :=
  if m.search.isEmpty
      || (!m.allow_host && (strContains device.name "Host" || strContains device.name "host")) then
    false
  else
    m.search.any (fun s => device.matches s m.exact)

/-- A sample offline device used to instantiate universally quantified
theorems at concrete inputs. -/
def devOff : Device := { port := "1-1", name := "Example Mouse", online := .Offline }

/-- A sample online device. -/
def devOn : Device := { port := "2-1", name := "Example Keyboard", online := .Online }

/-- A write environment in which every bind and unbind write succeeds. -/
def envAllOk : WriteEnv :=
  { bindResult := fun _ => none, unbindResult := fun _ => none }

/-- A sample I/O error for failing-write scenarios. -/
def ioPerm : IoError := { kind := .permissionDenied, msg := "permission denied" }

/-- A write environment in which every bind and unbind write fails. -/
def envAllFail : WriteEnv :=
  { bindResult := fun _ => some (.On (driverPath ++ "bind") ioPerm),
    unbindResult := fun _ => some (.Off (driverPath ++ "unbind") ioPerm) }

/-- The registry entry of end-to-end scenario 1: directory "1-1" whose
product file reads "Example Mouse\n". -/
def en11 : RegEntry :=
  { name := "1-1", metadata := .ok { isDir := true },
    productExists := true, productContents := .ok "Example Mouse\n" }

/-- Helper: `Status::from_bool` yields `Online` exactly on `true`. -/
theorem from_bool_online_iff (b : Bool) : Status.from_bool b = .Online ↔ b = true := by
  cases b <;> simp [Status.from_bool]

/-- Helper: boolean list containment agrees with membership. -/
theorem contains_true_iff (l : List String) (a : String) : l.contains a = true ↔ a ∈ l := by
  simp [List.contains, List.elem_iff]

/-- C3: `DeviceMatch::filter` with an empty search-string set returns
`false` for every device and any exact/allow-host flag settings. -/
theorem c3_empty_search_selects_nothing (d : Device) (ex allowH : Bool) :
    DeviceMatch.filter ⟨[], ex, allowH⟩ d = false := by
  simp [DeviceMatch.filter]

/-- C5: `Device::matches` in exact mode selects exactly on equality of the
port's lossy text or the name with the search string, and in substring mode
exactly on case-sensitive substring containment. -/
theorem c5_matches_exact_vs_substring (d : Device) (s : String) :
    (d.matches s true = true ↔ (d.port = s ∨ d.name = s))
    ∧ (d.matches s false = true ↔ (s.data <:+: d.port.data ∨ s.data <:+: d.name.data)) := by
  constructor
  · simp [Device.matches]
  · simp [Device.matches, strContains]

/-- C4 counterexample: the device named "HOST" contains the token "host"
case-insensitively, yet with a non-empty search set and the allow-host flag
unset `DeviceMatch::filter` selects it instead of rejecting it — the host
exclusion only tests the case-sensitive substrings "Host" and "host". -/
theorem c4_counterexample :
    strContains (asciiLower "HOST") "host" = true
    ∧ DeviceMatch.filter ⟨["HOST"], false, false⟩ ⟨"1-2", "HOST", .Online⟩ = true := by
  decide

/-- C4 (amended): for every device whose name contains "Host" or "host" as
a case-sensitive substring, `DeviceMatch::filter` rejects the device when
the allow-host flag is not set, for every search set and exact setting. -/
theorem c4_host_exclusion_case_sensitive (d : Device) (search : List String) (ex : Bool)
    (h : (strContains d.name "Host" || strContains d.name "host") = true) :
    DeviceMatch.filter ⟨search, ex, false⟩ d = false := by
  simp only [DeviceMatch.filter]
  rcases Bool.or_eq_true_iff.mp h with h1 | h1 <;> simp [h1]

/-- Witness for C4 (amended) at a concrete device and search set. -/
theorem c4_host_exclusion_witness :
    DeviceMatch.filter ⟨["x"], false, false⟩ ⟨"1-3", "USB Host Controller", .Online⟩ = false :=
  c4_host_exclusion_case_sensitive ⟨"1-3", "USB Host Controller", .Online⟩ ["x"] false
    (by decide)

/-- C10: the empty search string matches every device in substring mode,
so a search set containing `""` selects every device that the host rule
does not exclude, while the empty search set still selects none. -/
theorem c10_empty_string_matches_all (d : Device) (search : List String) (allowH : Bool)
    (hmem : "" ∈ search)
    (hhost : allowH = true
      ∨ (strContains d.name "Host" = false ∧ strContains d.name "host" = false)) :
    d.matches "" false = true
    ∧ DeviceMatch.filter ⟨search, false, allowH⟩ d = true
    ∧ DeviceMatch.filter ⟨[], false, allowH⟩ d = false := by
  have hm : d.matches "" false = true := by
    simp [Device.matches, strContains]
  have hne : search.isEmpty = false := by
    cases search with
    | nil => cases hmem
    | cons a l => rfl
  refine ⟨hm, ?_, ?_⟩
  · rcases hhost with h | ⟨h1, h2⟩
    · subst h
      simp [DeviceMatch.filter, hne, List.any_eq_true]
      exact ⟨"", hmem, hm⟩
    · simp [DeviceMatch.filter, hne, h1, h2, List.any_eq_true]
      exact ⟨"", hmem, hm⟩
  · simp [DeviceMatch.filter]

/-- Witness for C10 at a concrete device and search set. -/
theorem c10_witness :
    Device.matches devOff "" false = true
    ∧ DeviceMatch.filter ⟨[""], false, false⟩ devOff = true
    ∧ DeviceMatch.filter ⟨[], false, false⟩ devOff = false :=
  c10_empty_string_matches_all devOff [""] false (by decide) (Or.inr (by decide))

/-- C6: chaining two filters selects a device exactly when both select it;
when the first rejects, the second filter is not evaluated (its state
component is returned untouched); and chaining is associative in the
selection verdict. -/
theorem c6_chain_and_shortcircuit_assoc {α β γ : Type} (f : FilterM α) (g : FilterM β)
    (h : FilterM γ) (d : Device) (sa : α) (sb : β) (sc : γ) :
    ((chainFilter f g) d (sa, sb)).1 = ((f d sa).1 && (g d sb).1)
    ∧ ((f d sa).1 = false → (chainFilter f g) d (sa, sb) = (false, ((f d sa).2, sb)))
    ∧ ((chainFilter (chainFilter f g) h) d ((sa, sb), sc)).1
        = ((chainFilter f (chainFilter g h)) d (sa, (sb, sc))).1 := by
  refine ⟨?_, ?_, ?_⟩
  · cases hf : (f d sa).1 <;> simp [chainFilter, hf]
  · intro hf
    simp [chainFilter, hf]
  · cases hf : (f d sa).1 <;> cases hg : (g d sb).1 <;> simp [chainFilter, hf, hg]

/-- Witness for C6: a concrete rejecting first filter short-circuits. -/
theorem c6_witness :
    chainFilter (fun _ (s : Unit) => (false, s)) (fun _ (s : Unit) => (true, s)) devOff ((), ())
      = (false, ((), ())) := by
  have h := (c6_chain_and_shortcircuit_assoc (fun _ (s : Unit) => (false, s))
    (fun _ (s : Unit) => (true, s)) (fun _ (s : Unit) => (true, s)) devOff () () ()).2.1 rfl
  simpa using h

/-- C7: discovery yields nothing for a root entry whose metadata fetch
fails with a not-found condition (a vanished entry), for a non-directory
entry, or for a directory without a product descriptor — and such a
skipped entry contributes neither a device nor an error element to the
discovery output. -/
theorem c7_discovery_skips (driver : List String) (en : RegEntry) :
    (∀ io : IoError, en.metadata = .error io → io.kind = .notFound →
        discoverOne driver (.ok en) = .ok none)
    ∧ (∀ md : Metadata, en.metadata = .ok md → md.isDir = false →
        discoverOne driver (.ok en) = .ok none)
    ∧ (∀ md : Metadata, en.metadata = .ok md → md.isDir = true → en.productExists = false →
        discoverOne driver (.ok en) = .ok none)
    ∧ (∀ (x : Except IoError RegEntry) (es1 es2 : List (Except IoError RegEntry)),
        discoverOne driver x = .ok none →
        discover ⟨es1 ++ x :: es2, driver⟩ = discover ⟨es1 ++ es2, driver⟩) := by
  refine ⟨?_, ?_, ?_, ?_⟩
  · intro io h1 h2
    simp [discoverOne, h1, h2]
  · intro md h1 h2
    simp [discoverOne, h1, h2]
  · intro md h1 h2 h3
    simp [discoverOne, h1, h2, h3]
  · intro x es1 es2 hx
    simp [discover, hx, transposeOpt]

/-- Witness for C7: a concrete vanished entry is skipped silently. -/
theorem c7_witness :
    discoverOne ([] : List String)
      (.ok ⟨"3-0", .error ⟨.notFound, "gone"⟩, true, .ok "Hub"⟩) = .ok none :=
  (c7_discovery_skips [] ⟨"3-0", .error ⟨.notFound, "gone"⟩, true, .ok "Hub"⟩).1
    ⟨.notFound, "gone"⟩ rfl rfl

/-- C8: every device yielded by discovery is Online exactly when its port
is present in the driver-binding registry; and a fully successful entry
yields the device whose port is the entry's base name, whose name is the
trimmed product contents, and whose status reflects the driver test. -/
theorem c8_discovered_device_shape (r : Registry) :
    (∀ dev : Device, Except.ok dev ∈ discover r →
        (dev.online = .Online ↔ dev.port ∈ r.driver))
    ∧ (∀ (en : RegEntry) (md : Metadata) (contents : String),
        en.metadata = .ok md → md.isDir = true → en.productExists = true →
        en.productContents = .ok contents →
        discoverOne r.driver (.ok en)
          = .ok (some { port := en.name, name := strTrim contents,
                        online := Status.from_bool (r.driver.contains en.name) })) := by
  constructor
  · intro dev hdev
    simp only [discover, List.mem_filterMap, List.mem_map] at hdev
    obtain ⟨a, ⟨x, hx, rfl⟩, hta⟩ := hdev
    cases x with
    | error io => simp [discoverOne, transposeOpt] at hta
    | ok en =>
      rcases hmd : en.metadata with io | md
      · by_cases hk : io.kind = IoErrorKind.notFound <;>
          simp [discoverOne, hmd, hk, transposeOpt] at hta
      · cases hdir : md.isDir
        · simp [discoverOne, hmd, hdir, transposeOpt] at hta
        · cases hpe : en.productExists
          · simp [discoverOne, hmd, hdir, hpe, transposeOpt] at hta
          · rcases hpc : en.productContents with io | contents
            · simp [discoverOne, hmd, hdir, hpe, hpc, transposeOpt] at hta
            · simp only [discoverOne, hmd, hdir, hpe, hpc, transposeOpt] at hta
              simp only [Bool.true_eq_false, if_false, Option.some.injEq,
                Except.ok.injEq] at hta
              subst hta
              simp only [from_bool_online_iff]
              exact contains_true_iff r.driver en.name
  · intro en md contents h1 h2 h3 h4
    simp [discoverOne, h1, h2, h3, h4]

/-- Witness for C8: end-to-end scenario 1, the entry "1-1" with product
contents "Example Mouse\n" and an empty driver registry yields the device
with port "1-1", name "Example Mouse" and status Offline. -/
theorem c8_witness :
    discoverOne ([] : List String) (Except.ok en11)
      = .ok (some ⟨"1-1", "Example Mouse", .Offline⟩) := by
  have h := (c8_discovered_device_shape ⟨[Except.ok en11], []⟩).2 en11 ⟨true⟩
    "Example Mouse\n" rfl rfl rfl rfl
  exact h.trans (by decide)

/-- Helper: a diagnostic skip log is not a write. -/
theorem isWrite_logDebugSkipped (d : Device) : (Event.logDebugSkipped d).isWrite = false := rfl

/-- Helper: a turn-on refusal warning is not a write. -/
theorem isWrite_logWarnRefuseOn (n p : String) : (Event.logWarnRefuseOn n p).isWrite = false := rfl

/-- Helper: a turn-off refusal warning is not a write. -/
theorem isWrite_logWarnRefuseOff (n p : String) : (Event.logWarnRefuseOff n p).isWrite = false := rfl

/-- Helper: a turn-on confirmation log is not a write. -/
theorem isWrite_logInfoTurningOn (n : String) : (Event.logInfoTurningOn n).isWrite = false := rfl

/-- Helper: a turn-off confirmation log is not a write. -/
theorem isWrite_logInfoTurningOff (n : String) : (Event.logInfoTurningOff n).isWrite = false := rfl

/-- Helper: in dry-run mode the pipeline's event trace contains no
control-file write. -/
theorem applyRun_dry_no_write {σ : Type} (env : WriteEnv) (a : Action) (f : FilterM σ) :
    ∀ (devs : List (Except DiscoveryError Device)) (s : σ),
      (applyRun env a f true devs s).1.all (fun e => !e.isWrite) = true := by
  intro devs
  induction devs with
  | nil => intro s; simp [applyRun]
  | cons x rest ih =>
    intro s
    cases x with
    | error e => simp [applyRun]
    | ok d =>
      cases hsel : (f d s).1 with
      | false =>
        simp [applyRun, hsel, isWrite_logDebugSkipped, ih, -List.all_eq_true]
      | true =>
        cases a <;> cases hd : d.online <;>
          simp [applyRun, handleDevice, hsel, hd, isWrite_logWarnRefuseOn,
            isWrite_logWarnRefuseOff, isWrite_logInfoTurningOn,
            isWrite_logInfoTurningOff, ih, -List.all_eq_true]

/-- Helper: when every write succeeds, the dry-run trace is exactly the
real trace with the write events removed. -/
theorem applyRun_dry_events {σ : Type} (env : WriteEnv) (a : Action) (f : FilterM σ)
    (h1 : ∀ d, env.bindResult d = none) (h2 : ∀ d, env.unbindResult d = none) :
    ∀ (devs : List (Except DiscoveryError Device)) (s : σ),
      (applyRun env a f true devs s).1
        = (applyRun env a f false devs s).1.filter (fun e => !e.isWrite) := by
  intro devs
  induction devs with
  | nil => intro s; simp [applyRun]
  | cons x rest ih =>
    intro s
    cases x with
    | error e => simp [applyRun]
    | ok d =>
      cases hsel : (f d s).1 with
      | false => simp [applyRun, hsel, Event.isWrite, ih]
      | true =>
        cases a <;> cases hd : d.online <;>
          simp [applyRun, handleDevice, hsel, hd, h1, h2, Event.isWrite, ih]

/-- C1: `Apply::run` follows the §4.3 transition table exactly for every
device that passes the filter: On+Online and Off+Offline emit only a
refusal warning (no write) and continue with the remaining devices, with
the run's result that of the rest (so a refusal alone leaves the run
successful); On+Offline and Toggle+Offline log a confirmation and invoke
the bind write; Off+Online and Toggle+Online log a confirmation and
invoke the unbind write. -/
theorem c1_transition_table {σ : Type} (env : WriteEnv) (f : FilterM σ) (s : σ)
    (d : Device) (rest : List (Except DiscoveryError Device))
    (hsel : (f d s).1 = true)
    (hb : env.bindResult d = none) (hu : env.unbindResult d = none) :
    (d.online = .Online →
      applyRun env .On f false (.ok d :: rest) s
        = (Event.logWarnRefuseOn d.name d.port
             :: (applyRun env .On f false rest (f d s).2).1,
           (applyRun env .On f false rest (f d s).2).2))
    ∧ (d.online = .Offline →
      applyRun env .On f false (.ok d :: rest) s
        = (Event.logInfoTurningOn d.name :: Event.writeBind d.port
             :: (applyRun env .On f false rest (f d s).2).1,
           (applyRun env .On f false rest (f d s).2).2))
    ∧ (d.online = .Online →
      applyRun env .Off f false (.ok d :: rest) s
        = (Event.logInfoTurningOff d.name :: Event.writeUnbind d.port
             :: (applyRun env .Off f false rest (f d s).2).1,
           (applyRun env .Off f false rest (f d s).2).2))
    ∧ (d.online = .Offline →
      applyRun env .Off f false (.ok d :: rest) s
        = (Event.logWarnRefuseOff d.name d.port
             :: (applyRun env .Off f false rest (f d s).2).1,
           (applyRun env .Off f false rest (f d s).2).2))
    ∧ (d.online = .Online →
      applyRun env .Toggle f false (.ok d :: rest) s
        = (Event.logInfoTurningOff d.name :: Event.writeUnbind d.port
             :: (applyRun env .Toggle f false rest (f d s).2).1,
           (applyRun env .Toggle f false rest (f d s).2).2))
    ∧ (d.online = .Offline →
      applyRun env .Toggle f false (.ok d :: rest) s
        = (Event.logInfoTurningOn d.name :: Event.writeBind d.port
             :: (applyRun env .Toggle f false rest (f d s).2).1,
           (applyRun env .Toggle f false rest (f d s).2).2))
    ∧ (d.online = .Online → (applyRun env .On f false [.ok d] s).2.2 = .ok ())
    ∧ (d.online = .Offline → (applyRun env .Off f false [.ok d] s).2.2 = .ok ()) := by
  refine ⟨?_, ?_, ?_, ?_, ?_, ?_, ?_, ?_⟩ <;> intro h <;>
    simp [applyRun, handleDevice, hsel, hb, hu, h]

/-- Witness for C1: the refusal case On+Online at a concrete device,
ending in a successful run. -/
theorem c1_witness :
    applyRun envAllOk .On noOpFilter false [Except.ok devOn] ()
      = ([Event.logWarnRefuseOn "Example Keyboard" "2-1"], (), .ok ()) := by
  have h := (c1_transition_table envAllOk noOpFilter () devOn [] rfl rfl rfl).1 rfl
  simpa [applyRun, devOn] using h

/-- C2: with the dry-run flag enabled `Apply::run` performs no bind or
unbind write for any device sequence, filter and action; and when every
write succeeds, its event trace (hence its confirmation log output) is
exactly the non-dry-run trace with the write events removed. -/
theorem c2_dry_run_suppresses_writes {σ : Type} (env : WriteEnv) (a : Action)
    (f : FilterM σ) (devs : List (Except DiscoveryError Device)) (s : σ) :
    ((applyRun env a f true devs s).1.all (fun e => !e.isWrite) = true)
    ∧ ((∀ d, env.bindResult d = none) → (∀ d, env.unbindResult d = none) →
        (applyRun env a f true devs s).1
          = (applyRun env a f false devs s).1.filter (fun e => !e.isWrite)) :=
  ⟨applyRun_dry_no_write env a f devs s,
   fun h1 h2 => applyRun_dry_events env a f h1 h2 devs s⟩

/-- Witness for C2 at a concrete environment, action and device list. -/
theorem c2_witness :
    ((applyRun envAllOk .On noOpFilter true [Except.ok devOff] ()).1.all
        (fun e => !e.isWrite) = true)
    ∧ (applyRun envAllOk .On noOpFilter true [Except.ok devOff] ()).1
        = (applyRun envAllOk .On noOpFilter false [Except.ok devOff] ()).1.filter
            (fun e => !e.isWrite) :=
  ⟨(c2_dry_run_suppresses_writes envAllOk .On noOpFilter [Except.ok devOff] ()).1,
   (c2_dry_run_suppresses_writes envAllOk .On noOpFilter [Except.ok devOff] ()).2
     (fun _ => rfl) (fun _ => rfl)⟩

/-- C9: `Apply::run` aborts at the first error: an error element of the
device sequence surfaces immediately as a `Fetch`-wrapped error with
nothing after it processed; a run continues past a prefix only while that
prefix succeeds; a failed bind write surfaces as `TurnOn` with the device
and the underlying error, a failed unbind write as `TurnOff`, and in
either case the remaining devices contribute nothing to the trace. -/
theorem c9_errors_abort {σ : Type} (env : WriteEnv) (a : Action) (f : FilterM σ)
    (dr : Bool) :
    (∀ (e : DiscoveryError) (rest : List (Except DiscoveryError Device)) (s : σ),
        applyRun env a f dr (.error e :: rest) s = ([], s, .error (.Fetch e)))
    ∧ (∀ (pre suf : List (Except DiscoveryError Device)) (s : σ),
        (applyRun env a f dr pre s).2.2 = .ok () →
        applyRun env a f dr (pre ++ suf) s
          = ((applyRun env a f dr pre s).1
               ++ (applyRun env a f dr suf (applyRun env a f dr pre s).2.1).1,
             (applyRun env a f dr suf (applyRun env a f dr pre s).2.1).2))
    ∧ (∀ (d : Device) (rest : List (Except DiscoveryError Device)) (s : σ)
          (werr : StatusError),
        (f d s).1 = true → d.online = .Offline → env.bindResult d = some werr →
        (a = .On ∨ a = .Toggle) → dr = false →
        applyRun env a f dr (.ok d :: rest) s
          = ([Event.logInfoTurningOn d.name, Event.writeBind d.port], (f d s).2,
             .error (.TurnOn d werr)))
    ∧ (∀ (d : Device) (rest : List (Except DiscoveryError Device)) (s : σ)
          (werr : StatusError),
        (f d s).1 = true → d.online = .Online → env.unbindResult d = some werr →
        (a = .Off ∨ a = .Toggle) → dr = false →
        applyRun env a f dr (.ok d :: rest) s
          = ([Event.logInfoTurningOff d.name, Event.writeUnbind d.port], (f d s).2,
             .error (.TurnOff d werr))) := by
  refine ⟨?_, ?_, ?_, ?_⟩
  · intro e rest s
    simp [applyRun]
  · intro pre
    induction pre with
    | nil =>
      intro suf s hok
      simp [applyRun]
    | cons x rest ih =>
      intro suf s hok
      cases x with
      | error e => simp [applyRun] at hok
      | ok d =>
        cases hsel : (f d s).1 with
        | false =>
          simp only [applyRun, hsel] at hok
          simp only [Bool.false_eq_true, if_false] at hok
          have hok2 : (applyRun env a f dr rest (f d s).2).2.2 = .ok () := hok
          simp [applyRun, hsel, ih suf ((f d s).2) hok2]
        | true =>
          cases hhe : (handleDevice env a dr d).2 with
          | some err =>
            simp [applyRun, hsel, hhe] at hok
          | none =>
            simp only [applyRun, hsel] at hok
            simp only [if_true, hhe] at hok
            have hok2 : (applyRun env a f dr rest (f d s).2).2.2 = .ok () := hok
            simp [applyRun, hsel, hhe, ih suf ((f d s).2) hok2]
  · intro d rest s werr hsel hon hbind hcase hdr
    subst hdr
    rcases hcase with rfl | rfl <;>
      simp [applyRun, handleDevice, hsel, hon, hbind]
  · intro d rest s werr hsel hon hbind hcase hdr
    subst hdr
    rcases hcase with rfl | rfl <;>
      simp [applyRun, handleDevice, hsel, hon, hbind]

/-- Witness for C9: a concrete failed bind write aborts the run with a
`TurnOn` error carrying the device and the underlying I/O error. -/
theorem c9_witness :
    applyRun envAllFail .On noOpFilter false [Except.ok devOff] ()
      = ([Event.logInfoTurningOn devOff.name, Event.writeBind devOff.port], (),
         .error (.TurnOn devOff (.On (driverPath ++ "bind") ioPerm))) :=
  (c9_errors_abort envAllFail .On noOpFilter false).2.2.1 devOff [] ()
    (.On (driverPath ++ "bind") ioPerm) rfl rfl rfl (Or.inl rfl) rfl

end Usbctl
